import Mathlib

/-!
Shallow embedding of the reddit-profiler request pipeline.

The repository is a Next.js route handler (`src/app/api/profile/route.ts`,
two revisions separated in the file) plus two further revisions of the same
route (`src/unnamed/part_000`: the completion invoker with the retry loop,
`src/unnamed/part_001`: a complete route revision).  We embed:

* the username normalizer `cleanRedditUsername` (part_001 line 9-11,
  route.ts second revision line 16-18; the regex `^\/?(u\/)?` with the
  case-insensitive flag),
* the prompt reducer inside `generateProfile`
  (`comments.join(' ').slice(0, 6000)` wrapped in the instruction template,
  part_000 lines 8-11),
* the completion invoker `generateProfile` with its retry loop
  (part_000 lines 17-58: MAX_RETRIES = 3, backoff `2 ^ attempt * 1000` ms
  after a failed attempt except the final one, last error re-thrown),
* the authenticator `getRedditToken` and the comment fetcher
  `fetchRedditComments` (part_001 lines 13-89; route.ts second revision
  omits the empty-comments check, embedded as `fetchRedditCommentsNoCheck`),
* the `POST` handler with its catch-block error dispatch
  (part_001 lines 114-153).

Network effects are modelled by oracle arguments (one value per outbound
call the code can make) and an explicit event trace (`NetEvent`): a token
exchange, a comment-listing request, a completion request carrying the
prompt it sends, and a backoff sleep in milliseconds.  JavaScript strings
are modelled as `String` (lists of characters); JS truthiness of a string
field is "present and non-empty"; a thrown `Error` is `Except.error` of its
message.
-/

/-- Observable side effects of one orchestration run: the three kinds of
outbound network calls and the backoff sleeps (milliseconds). -/
inductive NetEvent where
  | tokenCall
  | commentsCall
  | completionCall (prompt : String)
  | sleep (ms : Nat)
deriving DecidableEq

/-- Outcome of racing one OpenAI completion call against the 30 s timeout
(part_000 lines 21-32).  `resolved content` models the race resolving with a
completion object, `content` being `completion?.choices?.[0]?.message?.content`
(`none` when any link of that optional chain is absent); `rejected msg`
models a rejection: network error, non-success response, or the timeout
(whose message is "OpenAI API request timeout"). -/
inductive AttemptResult where
  | resolved (content : Option String)
  | rejected (msg : String)
deriving DecidableEq

/-- Response of the token endpoint as seen by `getRedditToken`:
`httpError` models `!response.ok`; `okWith t` models a success body whose
`access_token` field is `t` (`none` when the field is absent). -/
inductive TokenResp where
  | httpError
  | okWith (accessToken : Option String)
deriving DecidableEq

/-- Response of the per-user comment listing endpoint as seen by
`fetchRedditComments`: HTTP 404, another non-success status, a success body
missing `data.data.children`, or a success with a list of children, each
child reduced to its `data.body` field (`none` when `child.data` or
`child.data.body` is absent). -/
inductive ListingResp where
  | status404
  | httpError (status : Nat)
  | badJson
  | okChildren (children : List (Option String))
deriving DecidableEq

/-- The JSON body and status the handler returns:
`NextResponse.json(body, status)`. -/
structure HttpResponse where
  status : Nat
  error : Option String
  profile : Option String
deriving DecidableEq

/-- First half of the regex `^\/?(u\/)?`: drop one leading `/` if present. -/
def stripLeadingSlash : List Char → List Char
  | [] => []
  | c :: rest => if c = '/' then rest else c :: rest

/-- Second half of the regex `^\/?(u\/)?` with the `i` flag: drop one
leading `u/` or `U/` if present. -/
def stripLeadingU : List Char → List Char
  | c1 :: c2 :: rest => if (c1 = 'u' ∨ c1 = 'U') ∧ c2 = '/' then rest else c1 :: c2 :: rest
  | l => l

/-- `cleanRedditUsername` (part_001 lines 9-11):
`username.replace(/^\/?(u\/)?/i, '')`.  The anchored regex removes one
optional leading `/` followed by one optional `u/` (case-insensitive) and
leaves the rest of the string unchanged. -/
def cleanRedditUsername (s : String) : String :=
  String.mk (stripLeadingU (stripLeadingSlash s.data))

/-- `startsWithList needle hay`: `needle` occurs at the front of `hay`. -/
def startsWithList : List Char → List Char → Bool
  | [], _ => true
  | _ :: _, [] => false
  | a :: as, b :: bs => a == b && startsWithList as bs

/-- `containsSub needle hay`: `needle` occurs contiguously somewhere in
`hay`. -/
def containsSub (needle : List Char) : List Char → Bool
  | [] => startsWithList needle []
  | b :: bs => startsWithList needle (b :: bs) || containsSub needle bs

/-- JavaScript `hay.includes(needle)`, used by the catch block of `POST`
(`error.message.includes('User not found')`, part_001 lines 137 and 142). -/
def jsIncludes (needle hay : String) : Bool :=
  containsSub needle.data hay.data

/-- The fixed instruction template of the prompt (part_000 line 11):
everything before the interpolated `${commentText}`. -/
def promptTemplate : String :=
  "Analyze these recent Reddit comments and create a concise profile of the user, including their interests, personality traits, and recurring topics. Focus on creating a well-rounded understanding of their online persona. Comments: "

/-- JavaScript `comments.join(' ')`: the comment bodies joined in order
with a single-space separator. -/
def joinSpace : List String → String
  | [] => ""
  | [c] => c
  | c :: rest => c ++ " " ++ joinSpace rest

/-- `commentText` (part_000 line 8): `comments.join(' ').slice(0, 6000)` -
the joined text tail-truncated to the 6000-character ceiling. -/
def commentTextOf (comments : List String) : String :=
  String.mk ((joinSpace comments).data.take 6000)

/-- The full prompt (part_000 line 11): the instruction template followed by
the truncated comment text. -/
def buildPrompt (comments : List String) : String :=
  promptTemplate ++ commentTextOf comments

/-- `MAX_RETRIES` (part_000 line 4). -/
def MAX_RETRIES : Nat := 3

/-- JS truthiness of the optional completion-text field, as tested by
`if (!completion?.choices?.[0]?.message?.content)` (part_000 line 35):
true exactly when the field is present and non-empty. -/
def contentTruthy : Option String → Bool
  | some s => s != ""
  | none => false

/-- One attempt of the retry loop seen as a result (part_000 lines 20-41):
the try-block either returns the completion text (the race resolved and the
content field is truthy) or throws - the explicit
"Invalid response format from OpenAI" when the field is absent or empty,
otherwise the rejection's own message. -/
def attemptResultToExcept : AttemptResult → Except String String
  | .resolved content =>
      if contentTruthy content then .ok (content.getD "")
      else .error "Invalid response format from OpenAI"
  | .rejected msg => .error msg

/-- The body of the retry loop `for (attempt = 1; attempt <= MAX_RETRIES;
attempt++)` (part_000 lines 17-54), recursing over the list of remaining
attempt numbers.  On success return immediately with the single completion
call in the trace; on failure record the error in `lastError`, sleep
`2 ^ attempt * 1000` ms when `attempt < MAX_RETRIES`, and continue.  When
the attempts are exhausted, throw `lastError` (part_000 line 58:
`throw lastError || new Error('Failed after all retry attempts')`). -/
def gpGo (prompt : String) (oracle : Nat → AttemptResult) :
    List Nat → Option String → Except String String × List NetEvent
  | [], lastError => (.error (lastError.getD "Failed after all retry attempts"), [])
  | attempt :: rest, _lastError =>
    match attemptResultToExcept (oracle attempt) with
    | .ok c => (.ok c, [NetEvent.completionCall prompt])
    | .error msg =>
      let backoff := if attempt < MAX_RETRIES then [NetEvent.sleep (2 ^ attempt * 1000)] else []
      let next := gpGo prompt oracle rest (some msg)
      (next.1, NetEvent.completionCall prompt :: (backoff ++ next.2))

/-- `generateProfile` (part_000 lines 1-59): build the prompt from the
comments, then run attempts 1, 2, 3 of the retry loop with
`lastError = null` initially.  The `oracle` gives the outcome of the n-th
completion attempt. -/
def generateProfile (comments : List String) (oracle : Nat → AttemptResult) :
    Except String String × List NetEvent :=
  gpGo (buildPrompt comments) oracle [1, 2, 3] none

/-- `getRedditToken` (part_001 lines 13-36): one token-exchange call; on
`!response.ok` throw "Failed to get Reddit access token"; on success return
`data.access_token` as-is - the field is not checked for presence, so an
absent field is returned as `none` (JS `undefined`). -/
def getRedditToken (tok : TokenResp) : Except String (Option String) × List NetEvent :=
  match tok with
  | .httpError => (.error "Failed to get Reddit access token", [NetEvent.tokenCall])
  | .okWith accessToken => (.ok accessToken, [NetEvent.tokenCall])

/-- The filter predicate `child.data && child.data.body` (part_001 line 134):
the child survives exactly when its body is present and non-empty. -/
def childTruthy : Option String → Bool
  | some body => body != ""
  | none => false

/-- `data.data.children.filter(...).map(child => child.data.body)`
(part_001 lines 133-135): the bodies of the children that pass the
truthiness filter, in order. -/
def filteredBodies (children : List (Option String)) : List String :=
  (children.filter childTruthy).map (fun child => child.getD "")

/-- `fetchRedditComments` (part_001 lines 96-147): clean the username again,
obtain a token (its failure propagates), then one listing call.  404 throws
"User not found!"; another non-success throws "Reddit API error: status";
a body missing `data.data.children` throws
"Invalid response format from Reddit"; zero filtered comments throw
"No comments found for this user"; otherwise the bodies are returned. -/
def fetchRedditComments (username : String) (tok : TokenResp) (listing : ListingResp) :
    Except String (List String) × List NetEvent :=
  let _cleanUsername := cleanRedditUsername username
  match getRedditToken tok with
  | (.error msg, evs) => (.error msg, evs)
  | (.ok _accessToken, evs) =>
    match listing with
    | .status404 => (.error "User not found!", evs ++ [NetEvent.commentsCall])
    | .httpError status =>
        (.error ("Reddit API error: " ++ toString status), evs ++ [NetEvent.commentsCall])
    | .badJson => (.error "Invalid response format from Reddit", evs ++ [NetEvent.commentsCall])
    | .okChildren children =>
      let comments := filteredBodies children
      if comments.length = 0 then
        (.error "No comments found for this user", evs ++ [NetEvent.commentsCall])
      else
        (.ok comments, evs ++ [NetEvent.commentsCall])

/-- `fetchRedditComments` of the second revision of route.ts (lines 225-277
of `src/app/api/profile/route.ts`): identical to the part_001 fetcher
except that the 404 message has no exclamation mark and - decisively - the
`comments.length === 0` check is absent, so an empty filtered list is
returned as a success. -/
def fetchRedditCommentsNoCheck (username : String) (tok : TokenResp) (listing : ListingResp) :
    Except String (List String) × List NetEvent :=
  let _cleanUsername := cleanRedditUsername username
  match getRedditToken tok with
  | (.error msg, evs) => (.error msg, evs)
  | (.ok _accessToken, evs) =>
    match listing with
    | .status404 => (.error "User not found", evs ++ [NetEvent.commentsCall])
    | .httpError status =>
        (.error ("Reddit API error: " ++ toString status), evs ++ [NetEvent.commentsCall])
    | .badJson => (.error "Invalid response format from Reddit", evs ++ [NetEvent.commentsCall])
    | .okChildren children => (.ok (filteredBodies children), evs ++ [NetEvent.commentsCall])

/-- The catch block of `POST` (part_001 lines 133-152): the status and body
are chosen purely by substring containment on the thrown error's message,
tested in order. -/
def errorResponse (msg : String) : HttpResponse :=
  if jsIncludes "User not found" msg then ⟨404, some "Reddit user not found", none⟩
  else if jsIncludes "No comments" msg then ⟨404, some "This user has no public comments", none⟩
  else ⟨500, some ("Error: " ++ msg), none⟩

/-- The try block of `POST` after the username check (part_001 lines
126-131): clean the username, fetch the comments, generate the profile;
any throw propagates unchanged. -/
def runPipeline (username : String) (tok : TokenResp) (listing : ListingResp)
    (oracle : Nat → AttemptResult) : Except String String × List NetEvent :=
  let cleanUsername := cleanRedditUsername username
  match fetchRedditComments cleanUsername tok listing with
  | (.error msg, evs) => (.error msg, evs)
  | (.ok comments, evs) =>
    match generateProfile comments oracle with
    | (.error msg, evs2) => (.error msg, evs ++ evs2)
    | (.ok profile, evs2) => (.ok profile, evs ++ evs2)

/-- `POST` (part_001 lines 114-153): `if (!username)` - the username being
absent, `null`, or the empty string (JS falsiness; no trimming) - returns
400 with "Username is required" before any network call; otherwise the
pipeline runs and a thrown error is mapped by the catch block. -/
def POST (username : Option String) (tok : TokenResp) (listing : ListingResp)
    (oracle : Nat → AttemptResult) : HttpResponse × List NetEvent :=
  match username with
  | none => (⟨400, some "Username is required", none⟩, [])
  | some u =>
    if u = "" then (⟨400, some "Username is required", none⟩, [])
    else
      match runPipeline u tok listing oracle with
      | (.error msg, evs) => (errorResponse msg, evs)
      | (.ok profile, evs) => (⟨200, none, some profile⟩, evs)

/-- The try block of the second revision of route.ts (lines 314-337), which
uses the fetcher without the empty-comments check. -/
def runPipelineNoCheck (username : String) (tok : TokenResp) (listing : ListingResp)
    (oracle : Nat → AttemptResult) : Except String String × List NetEvent :=
  let cleanUsername := cleanRedditUsername username
  match fetchRedditCommentsNoCheck cleanUsername tok listing with
  | (.error msg, evs) => (.error msg, evs)
  | (.ok comments, evs) =>
    match generateProfile comments oracle with
    | (.error msg, evs2) => (.error msg, evs ++ evs2)
    | (.ok profile, evs2) => (.ok profile, evs ++ evs2)

/-- `POST` of the second revision of route.ts (lines 314-367): same handler
shape, but the pipeline uses the fetcher that lacks the empty-comments
check. -/
def POSTNoEmptyCheck (username : Option String) (tok : TokenResp) (listing : ListingResp)
    (oracle : Nat → AttemptResult) : HttpResponse × List NetEvent :=
  match username with
  | none => (⟨400, some "Username is required", none⟩, [])
  | some u =>
    if u = "" then (⟨400, some "Username is required", none⟩, [])
    else
      match runPipelineNoCheck u tok listing oracle with
      | (.error msg, evs) => (errorResponse msg, evs)
      | (.ok profile, evs) => (⟨200, none, some profile⟩, evs)

/-! ### Helper lemmas about strings and the normalizer -/

theorem mk_data_eq (s : String) : String.mk s.data = s := rfl

theorem data_append_eq (s t : String) : (s ++ t).data = s.data ++ t.data := by
  cases s; cases t; rfl

theorem length_eq_data_length (s : String) : s.length = s.data.length := rfl

theorem length_append_eq (s t : String) : (s ++ t).length = s.length + t.length := by
  rw [length_eq_data_length, data_append_eq, List.length_append]; rfl

theorem stripLeadingSlash_slash (rest : List Char) :
    stripLeadingSlash ('/' :: rest) = rest := by
  simp [stripLeadingSlash]

theorem stripLeadingSlash_ne (c : Char) (rest : List Char) (hc : c ≠ '/') :
    stripLeadingSlash (c :: rest) = c :: rest := by
  simp [stripLeadingSlash, hc]

theorem stripLeadingU_u (rest : List Char) : stripLeadingU ('u' :: '/' :: rest) = rest := by
  simp [stripLeadingU]

theorem stripLeadingU_Ucap (rest : List Char) : stripLeadingU ('U' :: '/' :: rest) = rest := by
  simp [stripLeadingU]

theorem stripLeadingU_ne_head (c : Char) (l : List Char) (h1 : c ≠ 'u') (h2 : c ≠ 'U') :
    stripLeadingU (c :: l) = c :: l := by
  cases l with
  | nil => rfl
  | cons c2 rest => simp [stripLeadingU, h1, h2]

theorem stripLeadingSlash_drop (l : List Char) :
    ∃ k, k ≤ 1 ∧ stripLeadingSlash l = l.drop k := by
  cases l with
  | nil => exact ⟨0, by simp [stripLeadingSlash]⟩
  | cons c rest =>
    by_cases hc : c = '/'
    · subst hc; exact ⟨1, by simp [stripLeadingSlash_slash]⟩
    · exact ⟨0, by simp [stripLeadingSlash_ne c rest hc]⟩

theorem stripLeadingU_drop (l : List Char) :
    ∃ k, k ≤ 2 ∧ stripLeadingU l = l.drop k := by
  match l with
  | [] => exact ⟨0, by simp [stripLeadingU]⟩
  | [c] => exact ⟨0, by simp [stripLeadingU]⟩
  | c1 :: c2 :: rest =>
    by_cases h : (c1 = 'u' ∨ c1 = 'U') ∧ c2 = '/'
    · exact ⟨2, by simp [stripLeadingU, h]⟩
    · exact ⟨0, by simp [stripLeadingU, h]⟩

theorem cleanRedditUsername_drop (s : String) :
    ∃ k, k ≤ 3 ∧ (cleanRedditUsername s).data = s.data.drop k := by
  obtain ⟨k1, hk1, h1⟩ := stripLeadingSlash_drop s.data
  obtain ⟨k2, hk2, h2⟩ := stripLeadingU_drop (stripLeadingSlash s.data)
  refine ⟨k1 + k2, by omega, ?_⟩
  show stripLeadingU (stripLeadingSlash s.data) = s.data.drop (k1 + k2)
  rw [h2, h1, List.drop_drop]

theorem clean_fixed_parts (l : List Char) (h : stripLeadingU (stripLeadingSlash l) = l) :
    stripLeadingSlash l = l ∧ stripLeadingU l = l := by
  obtain ⟨k1, hk1, h1⟩ := stripLeadingSlash_drop l
  obtain ⟨k2, hk2, h2⟩ := stripLeadingU_drop (stripLeadingSlash l)
  have hlen : (l.drop (k1 + k2)).length = l.length := by
    rw [← List.drop_drop, ← h1, ← h2, h]
  rw [List.length_drop] at hlen
  by_cases hl : l.length = 0
  · have : l = [] := List.length_eq_zero.mp hl
    subst this
    exact ⟨rfl, rfl⟩
  · have hk0 : k1 = 0 ∧ k2 = 0 := by omega
    obtain ⟨e1, e2⟩ := hk0
    subst e1; subst e2
    simp only [List.drop_zero] at h1 h2
    rw [h1] at h2
    exact ⟨h1, h2⟩

/-! ### Helper lemmas about the retry loop and the handler -/

theorem gpGo_nil (p : String) (oracle : Nat → AttemptResult) (le : Option String) :
    gpGo p oracle [] le = (.error (le.getD "Failed after all retry attempts"), []) := rfl

theorem gpGo_cons_error (p : String) (oracle : Nat → AttemptResult) (attempt : Nat)
    (rest : List Nat) (le : Option String) (m : String)
    (h : attemptResultToExcept (oracle attempt) = Except.error m) :
    gpGo p oracle (attempt :: rest) le =
      ((gpGo p oracle rest (some m)).1,
        NetEvent.completionCall p ::
          ((if attempt < MAX_RETRIES then [NetEvent.sleep (2 ^ attempt * 1000)] else []) ++
            (gpGo p oracle rest (some m)).2)) := by
  simp only [gpGo, h]

theorem gpGo_cons_ok (p : String) (oracle : Nat → AttemptResult) (attempt : Nat)
    (rest : List Nat) (le : Option String) (c : String)
    (h : attemptResultToExcept (oracle attempt) = Except.ok c) :
    gpGo p oracle (attempt :: rest) le = (.ok c, [NetEvent.completionCall p]) := by
  simp only [gpGo, h]

theorem errorResponse_status (msg : String) :
    (errorResponse msg).status = 404 ∨ (errorResponse msg).status = 500 := by
  unfold errorResponse
  split
  · exact Or.inl rfl
  · split
    · exact Or.inl rfl
    · exact Or.inr rfl

/-! ### Claim theorems -/

/-- C1: if attempts 1 and 2 of the completion invoker fail and attempt 3
resolves with a non-empty completion-text field `c`, then `generateProfile`
returns exactly `c`, makes exactly three completion calls, and sleeps
exactly twice - 2000 ms after attempt 1 and 4000 ms after attempt 2
(`2 ^ attempt * 1000`), with no sleep after the final attempt: the whole
event trace is call, sleep 2000, call, sleep 4000, call. -/
theorem C1_third_attempt_success (comments : List String) (oracle : Nat → AttemptResult)
    (m1 m2 : String) (c : String)
    (h1 : attemptResultToExcept (oracle 1) = Except.error m1)
    (h2 : attemptResultToExcept (oracle 2) = Except.error m2)
    (h3a : oracle 3 = AttemptResult.resolved (some c)) (h3b : c ≠ "") :
    generateProfile comments oracle =
      (Except.ok c,
        [NetEvent.completionCall (buildPrompt comments), NetEvent.sleep 2000,
         NetEvent.completionCall (buildPrompt comments), NetEvent.sleep 4000,
         NetEvent.completionCall (buildPrompt comments)]) := by
  have h3 : attemptResultToExcept (oracle 3) = Except.ok c := by
    simp [attemptResultToExcept, h3a, contentTruthy, h3b]
  show gpGo (buildPrompt comments) oracle [1, 2, 3] none = _
  rw [gpGo_cons_error _ _ _ _ _ _ h1, gpGo_cons_error _ _ _ _ _ _ h2,
    gpGo_cons_ok _ _ _ _ _ _ h3]
  norm_num [MAX_RETRIES]

/-- Witness for C1 at a concrete run: attempts 1 and 2 are rejected with
"boom", attempt 3 resolves with content "profile text". -/
theorem C1_witness :
    generateProfile ["hi"]
        (fun n => if n = 3 then AttemptResult.resolved (some "profile text")
          else AttemptResult.rejected "boom") =
      (Except.ok "profile text",
        [NetEvent.completionCall (buildPrompt ["hi"]), NetEvent.sleep 2000,
         NetEvent.completionCall (buildPrompt ["hi"]), NetEvent.sleep 4000,
         NetEvent.completionCall (buildPrompt ["hi"])]) :=
  C1_third_attempt_success ["hi"] _ "boom" "boom" "profile text" rfl rfl rfl (by decide)

/-- C10: the normalizer's output is a suffix of its input - it deletes at
most the first three characters (one optional leading `/` followed by one
optional `u/`, case-insensitively) and leaves every remaining character
unchanged: there is a `k ≤ 3` with `clean s = s.drop k`. -/
theorem C10_normalizer_suffix (s : String) :
    ∃ k, k ≤ 3 ∧ (cleanRedditUsername s).data = s.data.drop k :=
  cleanRedditUsername_drop s

/-- C5 counterexample: the claim quantifies over every handle `h`, but for
`h = "/abc"` and the allowed leading marker `p = "/"`, normalizing `p ++ h`
gives "/abc" (only the first of the two slashes is removed) while
normalizing `h` alone gives "abc". -/
theorem C5_counterexample :
    cleanRedditUsername ("/" ++ "/abc") ≠ cleanRedditUsername "/abc" := by decide

/-- C5 amended: for every handle `h` that is already in normal form
(normalization leaves it unchanged - it does not itself begin with the
optional `/` and/or `u/` marker), prepending any of the prefixes `u/`,
`U/`, `/u/`, `/U/`, `/` leaves the normalization result unchanged. -/
theorem C5_amended (h p : String) (hfix : cleanRedditUsername h = h)
    (hp : p ∈ (["u/", "U/", "/u/", "/U/", "/"] : List String)) :
    cleanRedditUsername (p ++ h) = cleanRedditUsername h := by
  have hdat : stripLeadingU (stripLeadingSlash h.data) = h.data := congrArg String.data hfix
  obtain ⟨hs, hu⟩ := clean_fixed_parts h.data hdat
  rw [hfix]
  fin_cases hp
  · show String.mk (stripLeadingU (stripLeadingSlash (("u/" ++ h).data))) = h
    rw [show ("u/" ++ h).data = 'u' :: '/' :: h.data from by rw [data_append_eq]; rfl]
    rw [stripLeadingSlash_ne 'u' _ (by decide), stripLeadingU_u]
  · show String.mk (stripLeadingU (stripLeadingSlash (("U/" ++ h).data))) = h
    rw [show ("U/" ++ h).data = 'U' :: '/' :: h.data from by rw [data_append_eq]; rfl]
    rw [stripLeadingSlash_ne 'U' _ (by decide), stripLeadingU_Ucap]
  · show String.mk (stripLeadingU (stripLeadingSlash (("/u/" ++ h).data))) = h
    rw [show ("/u/" ++ h).data = '/' :: 'u' :: '/' :: h.data from by rw [data_append_eq]; rfl]
    rw [stripLeadingSlash_slash, stripLeadingU_u]
  · show String.mk (stripLeadingU (stripLeadingSlash (("/U/" ++ h).data))) = h
    rw [show ("/U/" ++ h).data = '/' :: 'U' :: '/' :: h.data from by rw [data_append_eq]; rfl]
    rw [stripLeadingSlash_slash, stripLeadingU_Ucap]
  · show String.mk (stripLeadingU (stripLeadingSlash (("/" ++ h).data))) = h
    rw [show ("/" ++ h).data = '/' :: h.data from by rw [data_append_eq]; rfl]
    rw [stripLeadingSlash_slash, hu]

/-- Witness for C5 amended: "spez" is in normal form and normalizing
"/u/spez" yields the same result as normalizing "spez". -/
theorem C5_witness :
    cleanRedditUsername "spez" = "spez" ∧
      cleanRedditUsername ("/u/" ++ "spez") = cleanRedditUsername "spez" :=
  ⟨by decide, C5_amended "spez" "/u/" (by decide) (by decide)⟩

/-- C8 counterexample: the normalizer does not trim whitespace - on input
" a" its output still begins with a whitespace character, contradicting
"its output has no leading or trailing whitespace characters". -/
theorem C8_counterexample :
    (cleanRedditUsername " a").data.head? = some ' ' ∧ Char.isWhitespace ' ' = true := by
  decide

/-- C8 amended: the normalizer performs no whitespace trimming at all.  An
input that begins with a whitespace character matches only the empty
occurrence of the regex and is returned completely unchanged, leading
whitespace included (and by `C10` reasoning the output is always a suffix
of the input, so no trailing character is ever removed either). -/
theorem C8_amended (c : Char) (l : List Char) (hw : c.isWhitespace = true) :
    cleanRedditUsername (String.mk (c :: l)) = String.mk (c :: l) := by
  have hchars : c = ' ' ∨ c = '\t' ∨ c = '\r' ∨ c = '\n' := by
    have := hw
    simp only [Char.isWhitespace, Bool.or_eq_true, decide_eq_true_eq] at this
    tauto
  have hslash : c ≠ '/' := by rcases hchars with h | h | h | h <;> subst h <;> decide
  have hu1 : c ≠ 'u' := by rcases hchars with h | h | h | h <;> subst h <;> decide
  have hu2 : c ≠ 'U' := by rcases hchars with h | h | h | h <;> subst h <;> decide
  show String.mk (stripLeadingU (stripLeadingSlash (c :: l))) = String.mk (c :: l)
  rw [stripLeadingSlash_ne c l hslash, stripLeadingU_ne_head c l hu1 hu2]

/-- Witness for C8 amended: a leading blank survives normalization of
" abc" verbatim. -/
theorem C8_witness :
    Char.isWhitespace ' ' = true ∧
      cleanRedditUsername (String.mk (' ' :: "abc".data)) = String.mk (' ' :: "abc".data) :=
  ⟨by decide, C8_amended ' ' "abc".data (by decide)⟩

set_option maxRecDepth 8000 in
theorem promptTemplate_length_pos : 0 < promptTemplate.length := by decide

theorem joinSpace_singleton (c : String) : joinSpace [c] = c := rfl

theorem commentTextOf_length (comments : List String) :
    (commentTextOf comments).length = min 6000 (joinSpace comments).data.length := by
  show ((joinSpace comments).data.take 6000).length = _
  rw [List.length_take]

/-- C4 counterexample: the 6000-character ceiling is applied to the joined
comment text before the instruction template is prepended, so for a single
comment of 6001 characters the finished prompt is 230 + 6000 characters
long - its total length exceeds the configured ceiling. -/
theorem C4_counterexample :
    6000 < (buildPrompt [String.mk (List.replicate 6001 'a')]).length := by
  have h1 : (buildPrompt [String.mk (List.replicate 6001 'a')]).length
      = promptTemplate.length + (commentTextOf [String.mk (List.replicate 6001 'a')]).length :=
    length_append_eq _ _
  have h2 : (commentTextOf [String.mk (List.replicate 6001 'a')]).length = 6000 := by
    rw [commentTextOf_length, joinSpace_singleton]
    rw [show (String.mk (List.replicate 6001 'a')).data = List.replicate 6001 'a' from rfl]
    rw [List.length_replicate]
    omega
  have h3 : 0 < promptTemplate.length := promptTemplate_length_pos
  omega

/-- C4 amended: the prompt always starts with the instruction template; the
ceiling bounds the truncated comment text, not the whole prompt, so the
prompt's total length is bounded by the template length plus 6000 (while
the prompt itself can exceed 6000). -/
theorem C4_amended (comments : List String) :
    (∃ rest, (buildPrompt comments).data = promptTemplate.data ++ rest) ∧
      (commentTextOf comments).length ≤ 6000 ∧
      (buildPrompt comments).length ≤ promptTemplate.length + 6000 := by
  have hct : (commentTextOf comments).length ≤ 6000 := by
    show ((joinSpace comments).data.take 6000).length ≤ 6000
    rw [List.length_take]
    omega
  refine ⟨⟨(commentTextOf comments).data, ?_⟩, hct, ?_⟩
  · show (promptTemplate ++ commentTextOf comments).data = _
    rw [data_append_eq]
  · show (promptTemplate ++ commentTextOf comments).length ≤ _
    rw [length_append_eq]
    omega

/-- C7 counterexample: a token-exchange response with HTTP success but no
`access_token` field does not make the authenticator fail - it returns the
absent value (`Except.ok none`, JS `undefined`) and the comment fetch then
runs and even succeeds, issuing its listing request. -/
theorem C7_counterexample :
    (getRedditToken (TokenResp.okWith none)).1 = Except.ok none ∧
      fetchRedditComments "abc" (TokenResp.okWith none)
          (ListingResp.okChildren [some "hello world"]) =
        (Except.ok ["hello world"], [NetEvent.tokenCall, NetEvent.commentsCall]) :=
  ⟨rfl, rfl⟩

/-- C7 amended: on an HTTP-success token response whose body lacks the
`access_token` field, `getRedditToken` returns the absent field value
instead of failing, and `fetchRedditComments` still proceeds to issue the
comment-listing request with that absent token, whatever the listing
endpoint then answers. -/
theorem C7_amended (u : String) (listing : ListingResp) :
    (getRedditToken (TokenResp.okWith none)).1 = Except.ok none ∧
      NetEvent.commentsCall ∈ (fetchRedditComments u (TokenResp.okWith none) listing).2 := by
  refine ⟨rfl, ?_⟩
  cases listing with
  | status404 => simp [fetchRedditComments, getRedditToken]
  | httpError status => simp [fetchRedditComments, getRedditToken]
  | badJson => simp [fetchRedditComments, getRedditToken]
  | okChildren children =>
    by_cases hc : (filteredBodies children).length = 0 <;>
      simp [fetchRedditComments, getRedditToken, hc]

/-- C6 counterexample: a username of one blank, which is empty after
trimming, does not produce the 400 "Username is required" response and
does not avoid network calls - the handler treats " " as truthy, runs the
pipeline, issues the token-exchange call, and (here, with a failing token
endpoint) answers 500. -/
theorem C6_counterexample :
    POST (some " ") TokenResp.httpError ListingResp.status404
        (fun _ => AttemptResult.rejected "x") =
      (⟨500, some "Error: Failed to get Reddit access token", none⟩, [NetEvent.tokenCall]) := by
  decide

/-- C6 amended: the handler returns 400 with "Username is required" exactly
when the username field is absent (or `null`) or is the empty string - JS
falsiness, with no trimming - and in that case no outbound call is made
(the event trace is empty). -/
theorem C6_amended (username : Option String) (tok : TokenResp) (listing : ListingResp)
    (oracle : Nat → AttemptResult) :
    ((POST username tok listing oracle).1 = ⟨400, some "Username is required", none⟩
        ↔ (username = none ∨ username = some "")) ∧
      ((username = none ∨ username = some "") →
        POST username tok listing oracle = (⟨400, some "Username is required", none⟩, [])) := by
  cases username with
  | none => exact ⟨by simp [POST], fun _ => rfl⟩
  | some u =>
    by_cases hu : u = ""
    · subst hu
      exact ⟨by simp [POST], fun _ => rfl⟩
    · constructor
      · constructor
        · intro habs
          exfalso
          rcases hr : runPipeline u tok listing oracle with ⟨r, evs⟩
          cases r with
          | error msg =>
            have : (errorResponse msg).status = 400 := by
              simp [POST, hu, hr] at habs
              rw [habs]
            rcases errorResponse_status msg with h4 | h5 <;> omega
          | ok profile =>
            simp [POST, hu, hr] at habs
        · intro habs
          rcases habs with h | h
          · exact absurd h (by simp)
          · exact absurd h (by simp [hu])
      · intro habs
        rcases habs with h | h
        · exact absurd h (by simp)
        · exact absurd h (by simp [hu])

/-- Witness for C6 amended at the empty-string username: the handler
answers 400 "Username is required" with an empty event trace. -/
theorem C6_witness :
    POST (some "") TokenResp.httpError ListingResp.status404
        (fun _ => AttemptResult.rejected "x") =
      (⟨400, some "Username is required", none⟩, []) :=
  (C6_amended (some "") TokenResp.httpError ListingResp.status404
    (fun _ => AttemptResult.rejected "x")).2 (Or.inr rfl)

/-- C9: for every run whose pipeline (any stage: authentication, fetch, or
completion) throws an error with message `msg`, the handler's response is
chosen purely by substring containment on `msg`, tested in order: a message
containing "User not found" yields 404 "Reddit user not found"; otherwise
one containing "No comments" yields 404 "This user has no public comments";
every other message yields 500 with "Error: " prepended. -/
theorem C9_status_dispatch (u : String) (tok : TokenResp) (listing : ListingResp)
    (oracle : Nat → AttemptResult) (msg : String) (hu : u ≠ "")
    (hfail : (runPipeline u tok listing oracle).1 = Except.error msg) :
    (POST (some u) tok listing oracle).1 =
      (if jsIncludes "User not found" msg then ⟨404, some "Reddit user not found", none⟩
        else if jsIncludes "No comments" msg then
          ⟨404, some "This user has no public comments", none⟩
        else ⟨500, some ("Error: " ++ msg), none⟩) := by
  rcases hr : runPipeline u tok listing oracle with ⟨r, evs⟩
  rw [hr] at hfail
  simp only at hfail
  subst hfail
  simp [POST, hu, hr, errorResponse]

/-- Witness for C9 at a concrete failing run: the token exchange fails, the
pipeline surfaces "Failed to get Reddit access token", and the handler
answers 500 with "Error: " prepended. -/
theorem C9_witness :
    (POST (some "abc") TokenResp.httpError ListingResp.status404
        (fun _ => AttemptResult.rejected "x")).1 =
      ⟨500, some "Error: Failed to get Reddit access token", none⟩ := by
  have h := C9_status_dispatch "abc" TokenResp.httpError ListingResp.status404
    (fun _ => AttemptResult.rejected "x") "Failed to get Reddit access token"
    (by decide) rfl
  rw [h]
  decide

/-- C2 counterexample: the claim promises HTTP 500 whenever all three
completion attempts fail, but the catch block dispatches on substrings of
the message of any thrown error.  With every attempt rejected with the
message "No comments here", the invoker does throw that last error, yet
the handler answers 404 "This user has no public comments", not 500. -/
theorem C2_counterexample :
    (generateProfile ["hi"] (fun _ => AttemptResult.rejected "No comments here")).1 =
        Except.error "No comments here" ∧
      (POST (some "abc") (TokenResp.okWith (some "t")) (ListingResp.okChildren [some "hi"])
          (fun _ => AttemptResult.rejected "No comments here")).1 =
        ⟨404, some "This user has no public comments", none⟩ :=
  ⟨rfl, rfl⟩

/-- C2 amended: when every completion attempt fails, the invoker throws the
message of the last (third) attempt's failure, and - provided that message
contains neither "User not found" nor "No comments", which would be
captured by the catch block's substring dispatch - the handler answers 500
with "Error: " prepended to it. -/
theorem C2_amended (u : String) (tokField : Option String) (children : List (Option String))
    (oracle : Nat → AttemptResult) (m1 m2 m3 : String) (hu : u ≠ "")
    (hne : (filteredBodies children).length ≠ 0)
    (h1 : attemptResultToExcept (oracle 1) = Except.error m1)
    (h2 : attemptResultToExcept (oracle 2) = Except.error m2)
    (h3 : attemptResultToExcept (oracle 3) = Except.error m3)
    (hn1 : jsIncludes "User not found" m3 = false)
    (hn2 : jsIncludes "No comments" m3 = false) :
    (generateProfile (filteredBodies children) oracle).1 = Except.error m3 ∧
      (POST (some u) (TokenResp.okWith tokField) (ListingResp.okChildren children) oracle).1 =
        ⟨500, some ("Error: " ++ m3), none⟩ := by
  have hgp : ∀ comments : List String,
      generateProfile comments oracle = (Except.error m3,
        [NetEvent.completionCall (buildPrompt comments), NetEvent.sleep 2000,
         NetEvent.completionCall (buildPrompt comments), NetEvent.sleep 4000,
         NetEvent.completionCall (buildPrompt comments)]) := by
    intro comments
    show gpGo (buildPrompt comments) oracle [1, 2, 3] none = _
    rw [gpGo_cons_error _ _ _ _ _ _ h1, gpGo_cons_error _ _ _ _ _ _ h2,
      gpGo_cons_error _ _ _ _ _ _ h3, gpGo_nil]
    norm_num [MAX_RETRIES]
  refine ⟨by rw [hgp (filteredBodies children)], ?_⟩
  have hfetch : fetchRedditComments (cleanRedditUsername u) (TokenResp.okWith tokField)
      (ListingResp.okChildren children) =
      (Except.ok (filteredBodies children), [NetEvent.tokenCall, NetEvent.commentsCall]) := by
    simp [fetchRedditComments, getRedditToken, hne]
  have hrp : runPipeline u (TokenResp.okWith tokField) (ListingResp.okChildren children) oracle =
      (Except.error m3,
        [NetEvent.tokenCall, NetEvent.commentsCall] ++
          [NetEvent.completionCall (buildPrompt (filteredBodies children)), NetEvent.sleep 2000,
           NetEvent.completionCall (buildPrompt (filteredBodies children)), NetEvent.sleep 4000,
           NetEvent.completionCall (buildPrompt (filteredBodies children))]) := by
    simp only [runPipeline, hfetch, hgp (filteredBodies children)]
  simp [POST, hu, hrp, errorResponse, hn1, hn2]

/-- Witness for C2 amended: every attempt is rejected with "boom"; the
invoker surfaces "boom" and the handler answers 500 "Error: boom". -/
theorem C2_witness :
    (generateProfile (filteredBodies [some "hello"])
        (fun _ => AttemptResult.rejected "boom")).1 = Except.error "boom" ∧
      (POST (some "abc") (TokenResp.okWith (some "t")) (ListingResp.okChildren [some "hello"])
          (fun _ => AttemptResult.rejected "boom")).1 = ⟨500, some "Error: boom", none⟩ :=
  C2_amended "abc" (some "t") [some "hello"] (fun _ => AttemptResult.rejected "boom")
    "boom" "boom" "boom" (by decide) (by decide) rfl rfl rfl (by decide) (by decide)

/-- C3: the claim holds for the fetcher revisions that test for an empty
filtered listing (part_001, first revision of route.ts), but the second
revision of route.ts omits the `comments.length === 0` check; on a listing
whose children have no non-empty body it returns an empty comment list as
a success, the completion step IS invoked (on a prompt holding no comment
text), and the handler answers 200 - instead of the claimed 404
"This user has no public comments" with no completion call.  The first
conjunct shows the checked pipeline honouring the claim on that very input;
the second shows the unchecked revision violating it. -/
theorem C3_missing_empty_check :
    POST (some "someuser") (TokenResp.okWith (some "t"))
        (ListingResp.okChildren [some "", none])
        (fun _ => AttemptResult.resolved (some "A thoughtful user")) =
      (⟨404, some "This user has no public comments", none⟩,
        [NetEvent.tokenCall, NetEvent.commentsCall]) ∧
    POSTNoEmptyCheck (some "someuser") (TokenResp.okWith (some "t"))
        (ListingResp.okChildren [some "", none])
        (fun _ => AttemptResult.resolved (some "A thoughtful user")) =
      (⟨200, none, some "A thoughtful user"⟩,
        [NetEvent.tokenCall, NetEvent.commentsCall, NetEvent.completionCall (buildPrompt [])]) :=
  ⟨rfl, rfl⟩
